import Mathlib

/-!
Verification of the kids-book-studio story pipeline and prompt composer.

The definitions below are shallow embeddings of the TypeScript source:

* `replacePlaceholders`, `mergeStoryboardWithImages`, `generateStoryboard`
  helpers from `lib/story-template.ts`;
* `buildStoryboardPanelPromptWithProps` from `lib/replicate.ts`;
* `sanitizeChildReferences`, `stripFacialDetails`,
  `buildStoryboardPanelPromptFromPhase5` from `lib/prompt-builder.ts`;
* `convertToTemplateFiles` and its three `convertPhaseNTo...` helpers from
  `lib/story-template.ts`;
* the phase route handlers `POST` (generate) and `PATCH` (approve/reject)
  from `app/api/admin/stories/[storyId]/phase/[phaseNum]/route.ts`,
  modelled as pure state transformers (the on-disk `project.json` record is
  the state; the external LLM call is an `Except` valued oracle argument;
  `new Date().toISOString()` is a `now : String` argument).

JavaScript `Record<K,V>` objects are modelled as association lists with
JS-object assignment semantics, `Map` construction with last-write-wins
lookup, and string truthiness (`undefined` and `""` are falsy) is modelled
explicitly.
-/

/-! ## JavaScript string and object primitives -/

/-- JS truthiness of an optional string: `undefined` and `""` are falsy. -/
def jsTruthy : Option String → Bool
  | none => false
  | some s => s ≠ ""

/-- JS `a || d` for an optional string `a`. -/
def jsOrDefault (s : Option String) (d : String) : String :=
  match s with
  | some v => if v = "" then d else v
  | none => d

/-- JS `Array.prototype.join(sep)`. -/
def joinParts (sep : String) : List String → String
  | [] => ""
  | [p] => p
  | p :: rest => p ++ sep ++ joinParts sep rest

/-- `sub` occurs as a contiguous substring of `s`. -/
def strContains (s sub : String) : Prop :=
  sub.toList <:+: s.toList

instance (s sub : String) : Decidable (strContains s sub) :=
  inferInstanceAs (Decidable (sub.toList <:+: s.toList))

/-- Exact prefix match on character lists; returns the remainder on success. -/
def listPrefixMatch? : List Char → List Char → Option (List Char)
  | [], s => some s
  | _ :: _, [] => none
  | p :: ps, c :: cs => if c = p then listPrefixMatch? ps cs else none

/-- One pass of JS `String.prototype.replace` with a global literal pattern:
left-to-right scan replacing non-overlapping occurrences.  `fuel` bounds the
recursion and is instantiated with the length of the subject string. -/
def replaceAllGo (pat repl : List Char) : Nat → List Char → List Char
  | _, [] => []
  | 0, s => s
  | fuel + 1, c :: rest =>
    match listPrefixMatch? pat (c :: rest) with
    | some after => repl ++ replaceAllGo pat repl fuel after
    | none => c :: replaceAllGo pat repl fuel rest

/-- The literal token `{{name}}`. -/
def nameToken : String := "\x7b\x7bname\x7d\x7d"

/-- `replacePlaceholders(text, name)` from `lib/story-template.ts`:
`text.replace(/\{\{name\}\}/g, name)`.  (The `$`-escape handling of a JS
replacement string is not modelled; every replacement used by the program is
a child name.) -/
def replacePlaceholders (text name : String) : String :=
  String.mk (replaceAllGo nameToken.toList name.toList text.toList.length text.toList)

/-- Single apostrophe character, kept out of string literals. -/
def apos : String := String.mk [Char.ofNat 39]

/-- JS `Map` lookup for a map built with `new Map(pairs)`: a later pair with
the same key overwrites an earlier one. -/
def jsMapGet (pairs : List (Nat × String)) (k : Nat) : Option String :=
  match pairs with
  | [] => none
  | (k2, v) :: rest =>
    match jsMapGet rest k with
    | some v2 => some v2
    | none => if k2 = k then some v else none

/-- JS object property assignment `obj[k] = v` on a `Record` modelled as an
association list: overwrite in place, or append when the key is new. -/
def jsObjSet {β : Type} (l : List (String × β)) (k : String) (v : β) : List (String × β) :=
  match l with
  | [] => [(k, v)]
  | (k2, v2) :: rest => if k2 = k then (k, v) :: rest else (k2, v2) :: jsObjSet rest k v

/-! ## Data model (`src/types/index.ts`) -/

/-- `Prop` from `types/index.ts` (`Prop` is reserved in Lean). -/
structure PropEntry where
  description : String
  appearances : List Nat
  deriving Repr, DecidableEq

/-- `Environment` from `types/index.ts`. -/
structure Environment where
  description : String
  appearances : List Nat
  deriving Repr, DecidableEq

/-- `PropBible` from `types/index.ts`.  `Record` fields are association
lists; optional fields are `Option`; an absent `compositions` record behaves
exactly like an empty one, so it is a plain list. -/
structure PropBible where
  storyId : String
  globalStyle : Option String := none
  globalInstructions : Option String := none
  compositions : List (Nat × String) := []
  props : List (String × PropEntry) := []
  environments : List (String × Environment) := []
  deriving Repr, DecidableEq

/-- `StoryPage` from `types/index.ts`.  `composition_hint` and `layout` are
string unions in TypeScript; they are modelled as strings because the
composer code looks them up in hint tables with a runtime fallback. -/
structure StoryPage where
  page : Nat
  scene : String
  props : Option (List String) := none
  environment : Option String := none
  emotion : String := ""
  action : String := ""
  setting : String := ""
  composition_hint : String
  text : String := ""
  layout : String
  imageUrl : Option String := none
  deriving Repr, DecidableEq

/-- `Storyboard` from `types/index.ts`. -/
structure Storyboard where
  id : String
  title : String
  ageRange : Option String := none
  pageCount : Option Nat := none
  pages : List StoryPage
  deriving Repr, DecidableEq

/-- An element of the `generatedImages` argument of
`mergeStoryboardWithImages`. -/
structure GeneratedImage where
  pageNumber : Nat
  imageUrl : String
  deriving Repr, DecidableEq

/-- `mergeStoryboardWithImages` from `lib/story-template.ts`: build a `Map`
from page number to url and attach `imageMap.get(page.page)` to every page. -/
def mergeStoryboardWithImages (storyboard : Storyboard)
    (generatedImages : List GeneratedImage) : Storyboard :=
  let imageMap := generatedImages.map (fun img => (img.pageNumber, img.imageUrl))
  { storyboard with
    pages := storyboard.pages.map (fun page => { page with imageUrl := jsMapGet imageMap page.page }) }

/-! ## Sketch-mode prompt composer (`lib/replicate.ts`) -/

/-- `STORYBOARD_STYLE_PROMPT` from `lib/replicate.ts`. -/
def STORYBOARD_STYLE_PROMPT : String :=
  "loose sketch, soft shapes, simplified forms, low detail, black and white only, no text, no border, minimal background"

/-- `defaultCompositionHints` table inside `buildStoryboardPanelPromptWithProps`. -/
def defaultCompositionHints : List (String × String) :=
  [("wide", "wide shot showing full scene and environment"),
   ("medium", "medium shot showing character and surroundings"),
   ("close", "close-up shot focusing on character")]

/-- `layoutHints` table inside `buildStoryboardPanelPromptWithProps`. -/
def layoutHints : List (String × String) :=
  [("left_text", "main subject on the right side, empty space on left"),
   ("right_text", "main subject on the left side, empty space on right"),
   ("bottom_text", "main action in upper two-thirds, clear lower area"),
   ("full_bleed", "balanced full scene composition")]

/-- The parts array built by `buildStoryboardPanelPromptWithProps` in
`lib/replicate.ts`, before the final `join(". ") + "."`.  Mirrors the code:
per-page composition override from the prop bible (JS-truthy, so an empty
override falls through), default composition hint with `"medium shot"`
fallback, layout hint with empty fallback, prop descriptions for the keys
found in the bible, environment description when the key matches, optional
global instructions, and global style with the sketch style as default. -/
def storyboardPromptParts (page : StoryPage) (propBible : PropBible) : List String :=
  let compositionFromBible := (propBible.compositions.lookup page.page).getD ""
  let compositionHint :=
    if compositionFromBible = "" then
      (defaultCompositionHints.lookup page.composition_hint).getD "medium shot"
    else compositionFromBible
  let layout := (layoutHints.lookup page.layout).getD ""
  let propDescriptions :=
    (page.props.getD []).filterMap
      (fun propKey => (propBible.props.lookup propKey).map (fun p => p.description))
  let environmentDescription :=
    match page.environment with
    | some envKey =>
      if envKey = "" then "" else ((propBible.environments.lookup envKey).map (fun e => e.description)).getD ""
    | none => ""
  ["Place the outline from the input image into this scene: " ++ page.scene]
  ++ (if propDescriptions ≠ [] then ["Key objects: " ++ joinParts "; " propDescriptions] else [])
  ++ (if environmentDescription ≠ "" then ["Environment: " ++ environmentDescription] else [])
  ++ ["Composition: " ++ compositionHint]
  ++ (if layout ≠ "" then [layout] else [])
  ++ (if jsTruthy propBible.globalInstructions then [propBible.globalInstructions.getD ""] else [])
  ++ ["Style: " ++ jsOrDefault propBible.globalStyle STORYBOARD_STYLE_PROMPT]

/-- `buildStoryboardPanelPromptWithProps` from `lib/replicate.ts`:
`parts.join(". ") + "."`. -/
def buildStoryboardPanelPromptWithProps (page : StoryPage) (propBible : PropBible) : String :=
  joinParts ". " (storyboardPromptParts page propBible) ++ "."

/-- The scene sentence that always opens the sketch prompt. -/
def scenePartOf (page : StoryPage) : String :=
  "Place the outline from the input image into this scene: " ++ page.scene

/-- The (zero or one) `Key objects` parts of the sketch prompt. -/
def keyObjectsPartsOf (page : StoryPage) (propBible : PropBible) : List String :=
  let propDescriptions :=
    (page.props.getD []).filterMap
      (fun propKey => (propBible.props.lookup propKey).map (fun p => p.description))
  if propDescriptions ≠ [] then ["Key objects: " ++ joinParts "; " propDescriptions] else []

/-- The (zero or one) `Environment` parts of the sketch prompt. -/
def environmentPartsOf (page : StoryPage) (propBible : PropBible) : List String :=
  let environmentDescription :=
    match page.environment with
    | some envKey =>
      if envKey = "" then "" else ((propBible.environments.lookup envKey).map (fun e => e.description)).getD ""
    | none => ""
  if environmentDescription ≠ "" then ["Environment: " ++ environmentDescription] else []

/-- The (zero or one) layout-hint parts of the sketch prompt. -/
def layoutPartsOf (page : StoryPage) : List String :=
  let layout := (layoutHints.lookup page.layout).getD ""
  if layout ≠ "" then [layout] else []

/-- The (zero or one) global-instructions parts of the sketch prompt. -/
def instructionsPartsOf (propBible : PropBible) : List String :=
  if jsTruthy propBible.globalInstructions then [propBible.globalInstructions.getD ""] else []

/-- The closing style part of the sketch prompt. -/
def stylePartOf (propBible : PropBible) : String :=
  "Style: " ++ jsOrDefault propBible.globalStyle STORYBOARD_STYLE_PROMPT

/-- The default composition phrase the code derives from `composition_hint`. -/
def defaultCompositionPhrase (page : StoryPage) : String :=
  (defaultCompositionHints.lookup page.composition_hint).getD "medium shot"

/-! ## Panel-brief prompt builder (`lib/prompt-builder.ts`) -/

/-- JS `\w` word character (ASCII letters, digits, underscore). -/
def isWordChar (c : Char) : Bool := c.isAlphanum || c = '_'

/-- Case-insensitive literal prefix match; returns the remainder. -/
def ciPrefixMatch? : List Char → List Char → Option (List Char)
  | [], s => some s
  | _ :: _, [] => none
  | p :: ps, c :: cs => if c.toLower = p.toLower then ciPrefixMatch? ps cs else none

/-- The regex `\b` assertion to the right of a match ending in a word
character: the next character is absent or not a word character. -/
def boundaryAfter : List Char → Bool
  | [] => true
  | c :: _ => !isWordChar c

/-- First alternative of a regex alternation of literals that matches at the
head of `s` with a word boundary after it (mirrors the backtracking order of
a JS alternation of literal words). -/
def firstAltMatch? : List String → List Char → Option (List Char)
  | [], _ => none
  | a :: rest, s =>
    match ciPrefixMatch? a.toList s with
    | some after => if boundaryAfter after then some after else firstAltMatch? rest s
    | none => firstAltMatch? rest s

/-- The alternatives of the name-reference regex in `sanitizeChildReferences`,
in source order. -/
def childRefAlternatives : List String :=
  ["the child", "the boy", "the girl", "the kid", "the little one",
   "the young child", "the protagonist", "the main character", "the child figure"]

/-- Scanner for the global, case-insensitive, word-bounded replacement in
`sanitizeChildReferences`.  `prevIsWord` tracks the `\b` assertion on the
left; fuel is the length of the subject. -/
def sanitizeGo (repl : List Char) : Nat → Bool → List Char → List Char
  | 0, _, s => s
  | _ + 1, _, [] => []
  | fuel + 1, prevIsWord, c :: rest =>
    if prevIsWord then c :: sanitizeGo repl fuel (isWordChar c) rest
    else
      match firstAltMatch? childRefAlternatives (c :: rest) with
      | some after => repl ++ sanitizeGo repl fuel true after
      | none => c :: sanitizeGo repl fuel (isWordChar c) rest

/-- `sanitizeChildReferences` from `lib/prompt-builder.ts`: replace generic
protagonist nouns with the mode-appropriate phrase. -/
def sanitizeChildReferences (text : String) (forStoryboard : Bool) : String :=
  let replacement := if forStoryboard then "the white outline placeholder" else "the character"
  String.mk (sanitizeGo replacement.toList text.toList.length false text.toList)

/-- JS `\s` whitespace (ASCII fragment). -/
def isJsWhitespace (c : Char) : Bool := c.isWhitespace

/-- JS `String.prototype.trim`. -/
def strTrim (s : String) : String :=
  String.mk (((s.toList.dropWhile isJsWhitespace).reverse.dropWhile isJsWhitespace).reverse)

/-- The expanded alternatives of the facial-detail regex in
`stripFacialDetails`, in backtracking order. -/
def facialKeywords : List String :=
  ["expression", "eyes", "mouth", "gaze", "gazing", "facial", "face",
   "smile", "smiles", "smiling", "grins", "grinning", "grin",
   "frowns", "frowning", "frown",
   "looks at", "looks toward", "looks up", "looks down",
   "looking at", "looking toward", "looking up", "looking down",
   "wide-eyed", "wide eyed", "wideeyed"]

/-- Does a delimiter-free chunk contain a word-bounded facial keyword? -/
def hasFacialKeyword : Nat → Bool → List Char → Bool
  | 0, _, _ => false
  | _ + 1, _, [] => false
  | fuel + 1, prevIsWord, c :: rest =>
    if prevIsWord then hasFacialKeyword fuel (isWordChar c) rest
    else
      match firstAltMatch? facialKeywords (c :: rest) with
      | some _ => true
      | none => hasFacialKeyword fuel (isWordChar c) rest

/-- Executable model of the sentence-removal regex
`/[^.;]*\b(...)\b[^.;]*[.;]\s*/gi` in `stripFacialDetails`: a maximal
`.`/`;`-free chunk that contains a facial keyword and is terminated by `.`
or `;` is removed together with its terminator and the whitespace after it;
an unterminated trailing chunk is never removed (the regex requires the
terminator). -/
def stripGo : Nat → List Char → List Char
  | 0, s => s
  | fuel + 1, s =>
    match s with
    | [] => []
    | _ :: _ =>
      let body := s.takeWhile (fun c => c ≠ '.' ∧ c ≠ ';')
      match s.drop body.length with
      | [] => s
      | d :: tail =>
        if hasFacialKeyword body.length false body then
          stripGo fuel (tail.dropWhile isJsWhitespace)
        else
          body ++ d :: stripGo fuel tail

/-- `stripFacialDetails` from `lib/prompt-builder.ts`. -/
def stripFacialDetails (text : String) : String :=
  strTrim (String.mk (stripGo text.toList.length text.toList))

/-- `PLACEHOLDER_INSTRUCTION` from `lib/prompt-builder.ts`. -/
def PLACEHOLDER_INSTRUCTION : String :=
  "The protagonist is the WHITE BLANK OUTLINE from the input image. " ++
  "Keep it as a featureless white silhouette — NO face, NO eyes, NO hair, NO skin color, NO clothing detail. " ++
  "It is a plain white placeholder shape to be filled in later."

/-! ## Phase artifact types (pipeline `@/types`, shapes as used by
`lib/story-llm.ts`, `lib/prompt-builder.ts` and `lib/story-template.ts`) -/

/-- Phase 0 concept; only the fields the conversion step reads are modelled. -/
structure Phase0Concept where
  ageRange : String
  visualHook : Option String := none
  deriving Repr, DecidableEq

/-- One spread of the phase 1 storyboard (content opaque to the claims). -/
structure StoryboardSpread where
  spreadNumber : Nat
  summary : String := ""
  deriving Repr, DecidableEq

/-- Phase 1 storyboard. -/
structure Phase1Storyboard where
  spreads : List StoryboardSpread
  deriving Repr, DecidableEq

/-- One spread of the phase 2 manuscript. -/
structure ManuscriptSpread where
  spreadNumber : Nat
  finalText : String
  illustrationNote : Option String := none
  deriving Repr, DecidableEq

/-- Phase 2 manuscript. -/
structure Phase2Manuscript where
  spreads : List ManuscriptSpread
  deriving Repr, DecidableEq

/-- A supporting character of the phase 4 props bible. -/
structure SupportingCharacter where
  name : String
  description : String
  appearsInSpreads : List Nat
  deriving Repr, DecidableEq

/-- A key object of the phase 4 props bible. -/
structure KeyObject where
  name : String
  description : String
  appearsInSpreads : List Nat
  stateChanges : Option String := none
  deriving Repr, DecidableEq

/-- An environment of the phase 4 props bible. -/
structure EnvironmentSpec where
  name : String
  description : String
  usedInSpreads : List Nat
  colorPalette : List String := []
  lightSource : Option String := none
  deriving Repr, DecidableEq

/-- A visual motif of the phase 4 props bible. -/
structure VisualMotif where
  motif : String
  purpose : String
  appearsInSpreads : List Nat
  deriving Repr, DecidableEq

/-- Phase 4 props bible. -/
structure Phase4PropsBible where
  supportingCharacters : List SupportingCharacter := []
  keyObjects : List KeyObject := []
  environments : List EnvironmentSpec := []
  visualMotifs : List VisualMotif := []
  styleNotes : Option String := none
  deriving Repr, DecidableEq

/-- Phase 5 panel brief. -/
structure Phase5PanelBrief where
  spreadNumber : Nat
  composition : String := ""
  environment : String := ""
  charactersInFrame : String := ""
  objectsInFrame : Option String := none
  emotionalDirection : String := ""
  imagePrompt : String := ""
  deriving Repr, DecidableEq

/-- Phase 5 panel briefs. -/
structure Phase5PanelBriefs where
  panels : List Phase5PanelBrief
  deriving Repr, DecidableEq

/-- The parts array built by `buildStoryboardPanelPromptFromPhase5` in
`lib/prompt-builder.ts` before the final `join(". \n") + "."`, in push
order: optional placeholder instruction, scene, environment, characters
(`CHARACTERS` in storyboard mode, `CHARACTER_DIRECTION` in final mode),
optional objects, optional visual motifs, mood, and style (always present
in storyboard mode via the sketch-style fallback, only for truthy style
notes in final mode). -/
def phase5PromptParts (panelBrief : Phase5PanelBrief) (propsBible : Option Phase4PropsBible)
    (forStoryboard : Bool) : List String :=
  let spreadNum := panelBrief.spreadNumber
  (if forStoryboard then ["PLACEHOLDER FIGURE: " ++ PLACEHOLDER_INSTRUCTION] else [])
  ++ ["SCENE: " ++ sanitizeChildReferences panelBrief.composition forStoryboard]
  ++ (match propsBible with
      | some pb =>
        match pb.environments.find? (fun e => e.usedInSpreads.contains spreadNum) with
        | some env =>
          let palette := joinParts ", " env.colorPalette
          let light := if jsTruthy env.lightSource then " Lighting: " ++ env.lightSource.getD "" ++ "." else ""
          ["ENVIRONMENT: " ++ env.name ++ " — " ++ sanitizeChildReferences env.description forStoryboard
            ++ ". Color palette: " ++ palette ++ "." ++ light]
        | none => ["ENVIRONMENT: " ++ sanitizeChildReferences panelBrief.environment forStoryboard]
      | none => ["ENVIRONMENT: " ++ sanitizeChildReferences panelBrief.environment forStoryboard])
  ++ (let supporting :=
        match propsBible with
        | some pb =>
          (pb.supportingCharacters.filter (fun c => c.appearsInSpreads.contains spreadNum)).map
            (fun c => c.name ++ ": " ++ c.description)
        | none => []
      if forStoryboard then
        let rawStaging := sanitizeChildReferences panelBrief.charactersInFrame true
        let cleanStaging := stripFacialDetails rawStaging
        ["CHARACTERS: " ++ joinParts "; "
          (("The white outline placeholder (featureless white silhouette, NO face, NO features)"
            ++ (if cleanStaging ≠ "" then ": " ++ cleanStaging else "")) :: supporting)]
      else
        let staging := sanitizeChildReferences panelBrief.charactersInFrame false
        ["CHARACTER_DIRECTION: " ++ joinParts "; " (staging :: supporting)])
  ++ (match propsBible with
      | some pb =>
        let objectsInSpread := pb.keyObjects.filter (fun o => o.appearsInSpreads.contains spreadNum)
        if objectsInSpread ≠ [] then
          ["OBJECTS: " ++ joinParts "; "
            (objectsInSpread.map (fun o =>
              o.name ++ ": " ++ o.description
                ++ (if jsTruthy o.stateChanges then " (" ++ o.stateChanges.getD "" ++ ")" else "")))]
        else if jsTruthy panelBrief.objectsInFrame then
          ["OBJECTS: " ++ sanitizeChildReferences (panelBrief.objectsInFrame.getD "") forStoryboard]
        else []
      | none =>
        if jsTruthy panelBrief.objectsInFrame then
          ["OBJECTS: " ++ sanitizeChildReferences (panelBrief.objectsInFrame.getD "") forStoryboard]
        else [])
  ++ (match propsBible with
      | some pb =>
        let motifsInSpread := pb.visualMotifs.filter (fun m => m.appearsInSpreads.contains spreadNum)
        if motifsInSpread ≠ [] then
          ["VISUAL MOTIFS: " ++ joinParts "; "
            (motifsInSpread.map (fun m => m.motif ++ " (" ++ m.purpose ++ ")"))]
        else []
      | none => [])
  ++ ["MOOD: " ++ sanitizeChildReferences panelBrief.emotionalDirection forStoryboard]
  ++ (let styleNotes :=
        match propsBible with
        | some pb => if jsTruthy pb.styleNotes then sanitizeChildReferences (pb.styleNotes.getD "") forStoryboard else ""
        | none => ""
      if forStoryboard then
        ["STYLE: " ++ (if styleNotes ≠ "" then styleNotes ++ ". " else "") ++ STORYBOARD_STYLE_PROMPT]
      else if styleNotes ≠ "" then ["STYLE: " ++ styleNotes]
      else [])

/-- `buildStoryboardPanelPromptFromPhase5` from `lib/prompt-builder.ts`:
`parts.join(". \n") + "."` (third argument is the resolved
`options?.forStoryboard !== false` flag). -/
def buildStoryboardPanelPromptFromPhase5 (panelBrief : Phase5PanelBrief)
    (propsBible : Option Phase4PropsBible) (forStoryboard : Bool) : String :=
  joinParts ". \x0a" (phase5PromptParts panelBrief propsBible forStoryboard) ++ "."

/-- The environment section of the panel-brief prompt. -/
def envSectionOf (panelBrief : Phase5PanelBrief) (propsBible : Option Phase4PropsBible)
    (forStoryboard : Bool) : String :=
  match propsBible with
  | some pb =>
    match pb.environments.find? (fun e => e.usedInSpreads.contains panelBrief.spreadNumber) with
    | some env =>
      let palette := joinParts ", " env.colorPalette
      let light := if jsTruthy env.lightSource then " Lighting: " ++ env.lightSource.getD "" ++ "." else ""
      "ENVIRONMENT: " ++ env.name ++ " — " ++ sanitizeChildReferences env.description forStoryboard
        ++ ". Color palette: " ++ palette ++ "." ++ light
    | none => "ENVIRONMENT: " ++ sanitizeChildReferences panelBrief.environment forStoryboard
  | none => "ENVIRONMENT: " ++ sanitizeChildReferences panelBrief.environment forStoryboard

/-- The characters section of the panel-brief prompt. -/
def charsSectionOf (panelBrief : Phase5PanelBrief) (propsBible : Option Phase4PropsBible)
    (forStoryboard : Bool) : String :=
  let supporting :=
    match propsBible with
    | some pb =>
      (pb.supportingCharacters.filter (fun c => c.appearsInSpreads.contains panelBrief.spreadNumber)).map
        (fun c => c.name ++ ": " ++ c.description)
    | none => []
  if forStoryboard then
    let cleanStaging := stripFacialDetails (sanitizeChildReferences panelBrief.charactersInFrame true)
    "CHARACTERS: " ++ joinParts "; "
      (("The white outline placeholder (featureless white silhouette, NO face, NO features)"
        ++ (if cleanStaging ≠ "" then ": " ++ cleanStaging else "")) :: supporting)
  else
    "CHARACTER_DIRECTION: " ++ joinParts "; "
      (sanitizeChildReferences panelBrief.charactersInFrame false :: supporting)

/-- The (zero or one) objects sections of the panel-brief prompt. -/
def objectsSectionOf (panelBrief : Phase5PanelBrief) (propsBible : Option Phase4PropsBible)
    (forStoryboard : Bool) : List String :=
  match propsBible with
  | some pb =>
    let objectsInSpread := pb.keyObjects.filter (fun o => o.appearsInSpreads.contains panelBrief.spreadNumber)
    if objectsInSpread ≠ [] then
      ["OBJECTS: " ++ joinParts "; "
        (objectsInSpread.map (fun o =>
          o.name ++ ": " ++ o.description
            ++ (if jsTruthy o.stateChanges then " (" ++ o.stateChanges.getD "" ++ ")" else "")))]
    else if jsTruthy panelBrief.objectsInFrame then
      ["OBJECTS: " ++ sanitizeChildReferences (panelBrief.objectsInFrame.getD "") forStoryboard]
    else []
  | none =>
    if jsTruthy panelBrief.objectsInFrame then
      ["OBJECTS: " ++ sanitizeChildReferences (panelBrief.objectsInFrame.getD "") forStoryboard]
    else []

/-- The (zero or one) visual-motifs sections of the panel-brief prompt. -/
def motifsSectionOf (panelBrief : Phase5PanelBrief) (propsBible : Option Phase4PropsBible) : List String :=
  match propsBible with
  | some pb =>
    let motifsInSpread := pb.visualMotifs.filter (fun m => m.appearsInSpreads.contains panelBrief.spreadNumber)
    if motifsInSpread ≠ [] then
      ["VISUAL MOTIFS: " ++ joinParts "; "
        (motifsInSpread.map (fun m => m.motif ++ " (" ++ m.purpose ++ ")"))]
    else []
  | none => []

/-- The (zero or one) style sections of the panel-brief prompt. -/
def styleSectionOf (propsBible : Option Phase4PropsBible) (forStoryboard : Bool) : List String :=
  let styleNotes :=
    match propsBible with
    | some pb => if jsTruthy pb.styleNotes then sanitizeChildReferences (pb.styleNotes.getD "") forStoryboard else ""
    | none => ""
  if forStoryboard then
    ["STYLE: " ++ (if styleNotes ≠ "" then styleNotes ++ ". " else "") ++ STORYBOARD_STYLE_PROMPT]
  else if styleNotes ≠ "" then ["STYLE: " ++ styleNotes]
  else []

/-! ## Story project state (`lib/story-template.ts` storage shapes) -/

/-- Per-phase status. -/
inductive PhaseStatus
  | pending
  | generating
  | review
  | approved
  deriving Repr, DecidableEq

/-- `PhaseState<T>`: status, output and bookkeeping of one phase. -/
structure PhaseState (α : Type) where
  status : PhaseStatus
  output : Option α := none
  revisionNotes : Option String := none
  generatedAt : Option String := none
  approvedAt : Option String := none
  deriving Repr, DecidableEq

/-- `createEmptyPhaseState` from `lib/story-template.ts`. -/
def createEmptyPhaseState (α : Type) : PhaseState α :=
  { status := .pending, output := none }

/-- `StoryProject`: the persisted `project.json` record. -/
structure StoryProject where
  id : String
  name : String
  createdAt : String := ""
  updatedAt : String := ""
  phase0 : PhaseState Phase0Concept := createEmptyPhaseState _
  phase1 : PhaseState Phase1Storyboard := createEmptyPhaseState _
  phase2 : PhaseState Phase2Manuscript := createEmptyPhaseState _
  phase4 : PhaseState Phase4PropsBible := createEmptyPhaseState _
  phase5 : PhaseState Phase5PanelBriefs := createEmptyPhaseState _
  currentPhase : Nat := 0
  templateReady : Bool := false
  deriving Repr, DecidableEq

/-- `saveStoryProject`: persists the record, refreshing `updatedAt` (the
denormalized stories index is out of scope). -/
def saveStoryProject (project : StoryProject) (now : String) : StoryProject :=
  { project with updatedAt := now }

/-! ## Phase route handlers
(`app/api/admin/stories/[storyId]/phase/[phaseNum]/route.ts`) -/

/-- `PHASE_ORDER` from the phase route. -/
def PHASE_ORDER : List Nat := [0, 1, 2, 4, 5]

/-- `nextPhase` from the phase route: successor in `PHASE_ORDER`, identity on
the last phase.  (TypeScript restricts the argument to `0|1|2|4|5`.) -/
def nextPhase (current : Nat) : Nat :=
  let idx := PHASE_ORDER.indexOf current
  if idx < PHASE_ORDER.length - 1 then PHASE_ORDER.getD (idx + 1) current else current

/-- Update the `project[phaseKey(n)]` field with a status-level edit that is
uniform in the output type (models `project[key].field = ...`). -/
def updatePhase (project : StoryProject) (n : Nat)
    (f : {α : Type} → PhaseState α → PhaseState α) : StoryProject :=
  match n with
  | 0 => { project with phase0 := f project.phase0 }
  | 1 => { project with phase1 := f project.phase1 }
  | 2 => { project with phase2 := f project.phase2 }
  | 4 => { project with phase4 := f project.phase4 }
  | 5 => { project with phase5 := f project.phase5 }
  | _ => project

/-- Status of phase `n` (phases are addressed by the literals 0,1,2,4,5). -/
def phaseStatus (project : StoryProject) : Nat → PhaseStatus
  | 0 => project.phase0.status
  | 1 => project.phase1.status
  | 2 => project.phase2.status
  | 4 => project.phase4.status
  | 5 => project.phase5.status
  | _ => .pending

/-- Revision notes of phase `n`. -/
def phaseRevisionNotes (project : StoryProject) : Nat → Option String
  | 0 => project.phase0.revisionNotes
  | 1 => project.phase1.revisionNotes
  | 2 => project.phase2.revisionNotes
  | 4 => project.phase4.revisionNotes
  | 5 => project.phase5.revisionNotes
  | _ => none

/-- Whether phase `n` has a stored output. -/
def phaseOutputIsSome (project : StoryProject) : Nat → Bool
  | 0 => project.phase0.output.isSome
  | 1 => project.phase1.output.isSome
  | 2 => project.phase2.output.isSome
  | 4 => project.phase4.output.isSome
  | 5 => project.phase5.output.isSome
  | _ => false

/-- Output type of each phase. -/
def PhaseOutputTy : Nat → Type
  | 0 => Phase0Concept
  | 1 => Phase1Storyboard
  | 2 => Phase2Manuscript
  | 4 => Phase4PropsBible
  | 5 => Phase5PanelBriefs
  | _ => Unit

/-- The stored output of phase `n`. -/
def getPhaseOutput (project : StoryProject) : (n : Nat) → Option (PhaseOutputTy n)
  | 0 => project.phase0.output
  | 1 => project.phase1.output
  | 2 => project.phase2.output
  | 4 => project.phase4.output
  | 5 => project.phase5.output
  | _ => none

/-- Outcome of a route call: the JSON response, reduced to success or an
HTTP error status plus message. -/
inductive RouteResponse
  | success
  | error (status : Nat) (message : String)
  deriving Repr, DecidableEq

/-- The `POST` handler of the phase route (generation), as a state
transformer on the persisted project.  `llm` is the outcome of the external
`generatePhaseN` call; `revisionNotes` comes from the request body; `now`
stands for `new Date().toISOString()`.  Mirrors the code: the status is set
to `generating` and saved first; each phase then checks that its dependency
outputs are present (returning 400 without resetting the status); an LLM
failure is caught and resets the status to `review` when an output exists,
else `pending`; success stores the output, sets `review`, stamps
`generatedAt` and records the request revision notes. -/
def generatePhase (project : StoryProject) :
    (phaseNum : Nat) → Except String (PhaseOutputTy phaseNum) → Option String → String →
    RouteResponse × StoryProject
  | 0, llm, revisionNotes, now =>
    let p1 := saveStoryProject (updatePhase project 0 (fun st => { st with status := .generating })) now
    match llm with
    | .error msg =>
      (.error 500 msg,
        saveStoryProject (updatePhase p1 0 (fun st =>
          { st with status := if st.output.isSome then .review else .pending })) now)
    | .ok output =>
      (.success, saveStoryProject
        { p1 with phase0 := { p1.phase0 with
            output := some output, status := .review,
            generatedAt := some now, revisionNotes := revisionNotes } } now)
  | 1, llm, revisionNotes, now =>
    let p1 := saveStoryProject (updatePhase project 1 (fun st => { st with status := .generating })) now
    if p1.phase0.output.isNone then
      (.error 400 "Phase 0 must be completed first", p1)
    else
      match llm with
      | .error msg =>
        (.error 500 msg,
          saveStoryProject (updatePhase p1 1 (fun st =>
            { st with status := if st.output.isSome then .review else .pending })) now)
      | .ok output =>
        (.success, saveStoryProject
          { p1 with phase1 := { p1.phase1 with
            output := some output, status := .review,
            generatedAt := some now, revisionNotes := revisionNotes } } now)
  | 2, llm, revisionNotes, now =>
    let p1 := saveStoryProject (updatePhase project 2 (fun st => { st with status := .generating })) now
    if p1.phase0.output.isNone || p1.phase1.output.isNone then
      (.error 400 "Phase 0 and 1 must be completed first", p1)
    else
      match llm with
      | .error msg =>
        (.error 500 msg,
          saveStoryProject (updatePhase p1 2 (fun st =>
            { st with status := if st.output.isSome then .review else .pending })) now)
      | .ok output =>
        (.success, saveStoryProject
          { p1 with phase2 := { p1.phase2 with
            output := some output, status := .review,
            generatedAt := some now, revisionNotes := revisionNotes } } now)
  | 4, llm, revisionNotes, now =>
    let p1 := saveStoryProject (updatePhase project 4 (fun st => { st with status := .generating })) now
    if p1.phase0.output.isNone || p1.phase2.output.isNone then
      (.error 400 "Phase 0 and 2 must be completed first", p1)
    else
      match llm with
      | .error msg =>
        (.error 500 msg,
          saveStoryProject (updatePhase p1 4 (fun st =>
            { st with status := if st.output.isSome then .review else .pending })) now)
      | .ok output =>
        (.success, saveStoryProject
          { p1 with phase4 := { p1.phase4 with
            output := some output, status := .review,
            generatedAt := some now, revisionNotes := revisionNotes } } now)
  | 5, llm, revisionNotes, now =>
    let p1 := saveStoryProject (updatePhase project 5 (fun st => { st with status := .generating })) now
    if p1.phase2.output.isNone || p1.phase4.output.isNone then
      (.error 400 "Phase 2 and 4 must be completed first", p1)
    else
      match llm with
      | .error msg =>
        (.error 500 msg,
          saveStoryProject (updatePhase p1 5 (fun st =>
            { st with status := if st.output.isSome then .review else .pending })) now)
      | .ok output =>
        (.success, saveStoryProject
          { p1 with phase5 := { p1.phase5 with
            output := some output, status := .review,
            generatedAt := some now, revisionNotes := revisionNotes } } now)
  | _, _, _, _ => (.error 400 "Invalid phase number", project)

/-- Whether some immediate dependency output of phase `n` is missing — the
condition the `POST` handler actually checks (output presence, not approval). -/
def depsMissing (project : StoryProject) : Nat → Bool
  | 1 => project.phase0.output.isNone
  | 2 => project.phase0.output.isNone || project.phase1.output.isNone
  | 4 => project.phase0.output.isNone || project.phase2.output.isNone
  | 5 => project.phase2.output.isNone || project.phase4.output.isNone
  | _ => false

/-- The `PATCH` handler of the phase route (approve / reject), as a state
transformer.  Mirrors the code: invalid phase numbers are rejected; approve
sets the status to `approved`, stamps the approval time and moves
`currentPhase` to `nextPhase(phaseNum)`; reject sets the status to `review`
and stores the request revision notes; no precondition on the current phase
status or on the notes is checked. -/
def patchPhase (project : StoryProject) (phaseNum : Nat) (action : String)
    (revisionNotes : Option String) (now : String) : RouteResponse × StoryProject :=
  if phaseNum ∈ PHASE_ORDER then
    if action = "approve" then
      let p1 := updatePhase project phaseNum (fun st =>
        { st with status := .approved, approvedAt := some now })
      (.success, saveStoryProject { p1 with currentPhase := nextPhase phaseNum } now)
    else if action = "reject" then
      let p1 := updatePhase project phaseNum (fun st =>
        { st with status := .review, revisionNotes := revisionNotes })
      (.success, saveStoryProject p1 now)
    else
      (.error 400 "Invalid action", project)
  else
    (.error 400 "Invalid phase number", project)

/-! ## Conversion to template files (`lib/story-template.ts`) -/

/-- First case-insensitive occurrence of `pat` in `s`; returns the remainder
after the occurrence. -/
def findCIRest (pat : List Char) : List Char → Option (List Char)
  | [] => ciPrefixMatch? pat []
  | c :: rest =>
    match ciPrefixMatch? pat (c :: rest) with
    | some after => some after
    | none => findCIRest pat rest

/-- Model of `note.match(/label\s*(.+?)(?:\.|$)/i)?.[1]?.trim()`: after the
first occurrence of `label`, skip whitespace and capture up to the first
period (the lazy `.+?` also cannot cross a newline); an empty capture means
no match.  Secondary match attempts at later occurrences of the label are
not modelled (the phase 2 schema emits each label once). -/
def matchNoteField (label : String) (note : String) : Option String :=
  match findCIRest label.toList note.toList with
  | none => none
  | some rest =>
    let afterWs := rest.dropWhile isJsWhitespace
    let captured := afterWs.takeWhile (fun c => c ≠ '.' ∧ c ≠ '\x0a')
    if captured = [] then none else some (strTrim (String.mk captured))

/-- First alternative of `choices` matching case-insensitively right after
the first occurrence of `label` and optional whitespace; the capture keeps
the original casing from `note` (model of
`note.match(/label\s*(alt1|alt2|...)/i)?.[1]`). -/
def matchNoteChoice (label : String) (choices : List String) (note : String) : Option String :=
  match findCIRest label.toList note.toList with
  | none => none
  | some rest =>
    let afterWs := rest.dropWhile isJsWhitespace
    choices.firstM (fun choice =>
      match ciPrefixMatch? choice.toList afterWs with
      | some _ => some (String.mk (afterWs.take choice.toList.length))
      | none => none)

/-- One page of the `story.json` artifact. -/
structure StoryJsonPage where
  page : Nat
  scene : String
  emotion : String
  action : String
  setting : String
  composition_hint : String
  text : String
  layout : String
  deriving Repr, DecidableEq

/-- The `story.json` artifact. -/
structure StoryJson where
  id : String
  title : String
  ageRange : String
  pageCount : Nat
  pages : List StoryJsonPage
  deriving Repr, DecidableEq

/-- `PagePrompt` from `types/index.ts`. -/
structure PagePrompt where
  page : Nat
  prompt : String
  deriving Repr, DecidableEq

/-- `PromptsTemplate` from `types/index.ts`. -/
structure PromptsTemplate where
  storyId : String
  stylePrompt : String
  negativePrompt : String
  pages : List PagePrompt
  deriving Repr, DecidableEq

/-- `convertPhase2ToStoryJson` from `lib/story-template.ts`: best-effort
structured-field extraction from each spread illustration note, with the
hardcoded per-field fallbacks. -/
def convertPhase2ToStoryJson (manuscript : Phase2Manuscript) (concept : Phase0Concept)
    (storyId : String) : StoryJson :=
  let pages := manuscript.spreads.map (fun spread =>
    let note := spread.illustrationNote.getD ""
    { page := spread.spreadNumber
      scene := jsOrDefault (matchNoteField "scene:" note) (String.mk (note.toList.take 100))
      emotion := jsOrDefault (matchNoteField "emotion:" note) "engaged"
      action := jsOrDefault (matchNoteField "action:" note) "in the scene"
      setting := jsOrDefault (matchNoteField "setting:" note) "story setting"
      composition_hint :=
        jsOrDefault (matchNoteChoice "composition:" ["wide", "medium", "close"] note) "medium"
      text := spread.finalText
      layout :=
        jsOrDefault
          (matchNoteChoice "layout:" ["left_text", "right_text", "bottom_text", "full_bleed"] note)
          "bottom_text" : StoryJsonPage })
  { id := storyId
    title := nameToken ++ apos ++ "s " ++ jsOrDefault concept.visualHook "Story"
    ageRange := concept.ageRange
    pageCount := pages.length
    pages := pages }

/-- A character kept by the slug regex `[^a-z0-9]+` complement, after
lowercasing. -/
def isSlugKeep (c : Char) : Bool :=
  (97 ≤ c.toNat && c.toNat ≤ 122) || c.isDigit

/-- Collapse every maximal run of non-kept characters to one underscore
(the `replace(/[^a-z0-9]+/g, "_")` step). -/
def collapseGo (inRun : Bool) : List Char → List Char
  | [] => []
  | c :: rest =>
    if isSlugKeep c then c :: collapseGo false rest
    else if inRun then collapseGo true rest
    else Char.ofNat 95 :: collapseGo true rest

/-- Drop one leading and one trailing underscore
(the `replace(/^_|_$/g, "")` step). -/
def stripEdgeUnderscore (l : List Char) : List Char :=
  let l1 := match l with
    | c :: rest => if c = Char.ofNat 95 then rest else l
    | [] => l
  match l1.reverse with
  | c :: rest => if c = Char.ofNat 95 then rest.reverse else l1
  | [] => l1

/-- The key slugification in `convertPhase4ToPropBible`:
`name.toLowerCase().replace(/[^a-z0-9]+/g, "_").replace(/^_|_$/g, "")`. -/
def slugUnderscore (name : String) : String :=
  String.mk (stripEdgeUnderscore (collapseGo false (name.toList.map Char.toLower)))

/-- `convertPhase4ToPropBible` from `lib/story-template.ts`. -/
def convertPhase4ToPropBible (phase4 : Phase4PropsBible) (storyId : String) : PropBible :=
  let props := phase4.keyObjects.foldl
    (fun acc obj => jsObjSet acc (slugUnderscore obj.name)
      { description := obj.description, appearances := obj.appearsInSpreads }) []
  let environments := phase4.environments.foldl
    (fun acc env => jsObjSet acc (slugUnderscore env.name)
      { description := env.description, appearances := env.usedInSpreads }) []
  { storyId := storyId
    globalStyle := phase4.styleNotes
    props := props
    environments := environments }

/-- `convertPhase5ToPromptsJson` from `lib/story-template.ts`. -/
def convertPhase5ToPromptsJson (panelBriefs : Phase5PanelBriefs)
    (propsBible : Phase4PropsBible) (storyId : String) : PromptsTemplate :=
  { storyId := storyId
    stylePrompt := jsOrDefault propsBible.styleNotes
      ("Soft children" ++ apos ++ "s book illustration, pastel colors, gentle watercolor texture")
    negativePrompt := "extra characters, multiple children, inconsistent face, realistic photo, harsh shadows, text, words, letters"
    pages := panelBriefs.panels.map (fun panel =>
      { page := panel.spreadNumber, prompt := panel.imagePrompt }) }

/-- The story project record together with the three on-disk template
artifacts of that story (`story.json`, `prop-bible.json`, `prompts.json`). -/
structure TemplateFilesState where
  project : StoryProject
  storyFile : Option StoryJson := none
  propBibleFile : Option PropBible := none
  promptsFile : Option PromptsTemplate := none
  deriving Repr, DecidableEq

/-- `convertToTemplateFiles` from `lib/story-template.ts`, as a state
transformer over the project record and the artifact files.  Mirrors the
code: it throws (the route answers 500) when the phase 0 or phase 2 output
is missing, before any write; otherwise it writes `story.json`, writes
`prop-bible.json` when phase 4 output exists, writes `prompts.json` when
phase 5 and phase 4 outputs exist, then marks the project template-ready
and saves it. -/
def convertToTemplateFiles (s : TemplateFilesState) (now : String) :
    RouteResponse × TemplateFilesState :=
  let project := s.project
  match project.phase0.output, project.phase2.output with
  | some concept, some manuscript =>
    let s1 := { s with storyFile := some (convertPhase2ToStoryJson manuscript concept project.id) }
    let s2 :=
      match project.phase4.output with
      | some propsBible =>
        { s1 with propBibleFile := some (convertPhase4ToPropBible propsBible project.id) }
      | none => s1
    let s3 :=
      match project.phase5.output, project.phase4.output with
      | some panelBriefs, some propsBible =>
        { s2 with promptsFile := some (convertPhase5ToPromptsJson panelBriefs propsBible project.id) }
      | _, _ => s2
    (.success, { s3 with project := saveStoryProject { project with templateReady := true } now })
  | _, _ => (.error 500 "Phase 0 and Phase 2 required for conversion", s)

/-- The composition string the sketch composer ends up using: the per-page
prop-bible override when it is set and non-empty, else the default phrase. -/
def compositionChoiceOf (page : StoryPage) (propBible : PropBible) : String :=
  let compositionFromBible := (propBible.compositions.lookup page.page).getD ""
  if compositionFromBible = "" then defaultCompositionPhrase page else compositionFromBible

/-- `pre` is a prefix of `s`. -/
def strStartsWith (s pre : String) : Prop :=
  pre.toList <+: s.toList

instance (s pre : String) : Decidable (strStartsWith s pre) :=
  inferInstanceAs (Decidable (pre.toList <+: s.toList))

/-! ## Sample data used by witnesses and counterexamples -/

/-- A small phase 0 concept. -/
def sampleConcept : Phase0Concept := { ageRange := "3-5", visualHook := some "Quest" }

/-- A small phase 1 storyboard. -/
def sampleStoryboard : Phase1Storyboard := { spreads := [{ spreadNumber := 1, summary := "intro" }] }

/-- A small phase 2 manuscript with a well-formed illustration note. -/
def sampleManuscript : Phase2Manuscript :=
  { spreads := [{ spreadNumber := 1, finalText := "Hello " ++ nameToken,
                  illustrationNote := some "scene: a sunny field. emotion: joy. action: waving. setting: meadow. composition: wide. layout: full_bleed." }] }

/-- A small phase 4 props bible. -/
def samplePropsBible : Phase4PropsBible :=
  { keyObjects := [{ name := "Magical Door!", description := "an oak door", appearsInSpreads := [1] }],
    environments := [{ name := "Backyard Garden", description := "lush greenery", usedInSpreads := [1],
                       colorPalette := ["green"] }],
    styleNotes := some "soft pastel" }

/-- A small phase 5 panel-brief set. -/
def samplePanelBriefs : Phase5PanelBriefs :=
  { panels := [{ spreadNumber := 1, imagePrompt := "dense prompt" }] }

/-- A project whose phase 0 is approved with an output. -/
def rejectCexProject : StoryProject :=
  { id := "story-a", name := "Story A",
    phase0 := { status := .approved, output := some sampleConcept } }

/-- A project whose phase 5 is in review while `currentPhase` is still 0
(reachable: generation only requires dependency outputs, not approvals). -/
def approveCexProject : StoryProject :=
  { id := "story-b", name := "Story B",
    phase0 := { status := .review, output := some sampleConcept },
    phase1 := { status := .review, output := some sampleStoryboard },
    phase2 := { status := .review, output := some sampleManuscript },
    phase4 := { status := .review, output := some samplePropsBible },
    phase5 := { status := .review, output := some samplePanelBriefs },
    currentPhase := 0 }

/-- A project whose phase 0 has an output but is not approved. -/
def generateCexProject : StoryProject :=
  { id := "story-c", name := "Story C",
    phase0 := { status := .review, output := some sampleConcept } }

/-- A freshly created project: everything pending, no outputs. -/
def emptyProject : StoryProject := { id := "story-d", name := "Story D" }

/-- A project with all five outputs present and approved. -/
def sampleProject : StoryProject :=
  { id := "story-w", name := "Story W",
    phase0 := { status := .approved, output := some sampleConcept },
    phase1 := { status := .approved, output := some sampleStoryboard },
    phase2 := { status := .approved, output := some sampleManuscript },
    phase4 := { status := .approved, output := some samplePropsBible },
    phase5 := { status := .approved, output := some samplePanelBriefs },
    currentPhase := 5 }

/-- Template-files state for `sampleProject` with nothing written yet. -/
def sampleFilesState : TemplateFilesState := { project := sampleProject }

/-- A page whose composition hint is `wide`, used in the override
counterexample. -/
def overrideCexPage : StoryPage :=
  { page := 2, scene := "a quiet yard", composition_hint := "wide", layout := "full_bleed" }

/-- A prop bible that sets the page-2 composition override to the empty
string. -/
def overrideCexBible : PropBible :=
  { storyId := "s", compositions := [(2, "")] }

/-- A panel brief used in the section-label counterexample. -/
def sectionCexBrief : Phase5PanelBrief :=
  { spreadNumber := 1, composition := "hero stands tall", environment := "sunny meadow",
    charactersInFrame := "the protagonist smiling", emotionalDirection := "calm wonder",
    imagePrompt := "unused" }

/-! ## Helper lemmas -/

theorem strToList_append (s t : String) : (s ++ t).toList = s.toList ++ t.toList := rfl

theorem strMk_toList (s : String) : String.mk s.toList = s := rfl

theorem listPrefixMatch_iff (pat : List Char) :
    ∀ s r : List Char, listPrefixMatch? pat s = some r ↔ s = pat ++ r := by
  induction pat with
  | nil =>
    intro s r
    simp [listPrefixMatch?, eq_comm]
  | cons p ps ih =>
    intro s r
    cases s with
    | nil => simp [listPrefixMatch?]
    | cons c cs =>
      simp only [listPrefixMatch?, List.cons_append, List.cons_eq_cons]
      by_cases h : c = p
      · simp [h, ih]
      · simp [h]

theorem replaceAllGo_no_occurrence (pat repl : List Char) :
    ∀ (fuel : Nat) (s : List Char), ¬ pat <:+: s →
      replaceAllGo pat repl fuel s = s := by
  intro fuel
  induction fuel with
  | zero => intro s _; cases s <;> rfl
  | succ n ih =>
    intro s h
    cases s with
    | nil => rfl
    | cons c cs =>
      have hm : listPrefixMatch? pat (c :: cs) = none := by
        cases hmm : listPrefixMatch? pat (c :: cs) with
        | none => rfl
        | some r =>
          exact absurd ⟨[], r, by simpa using ((listPrefixMatch_iff pat (c :: cs) r).mp hmm).symm⟩ h
      have hcs : ¬ pat <:+: cs := by
        intro hc
        rcases hc with ⟨u, v, huv⟩
        exact h ⟨c :: u, v, by simp [← huv]⟩
      simp only [replaceAllGo, hm, ih cs hcs]

theorem replacePlaceholders_id_of_no_token (text name : String)
    (h : ¬ strContains text nameToken) : replacePlaceholders text name = text := by
  unfold replacePlaceholders
  rw [replaceAllGo_no_occurrence nameToken.toList name.toList text.toList.length text.toList h]
  exact strMk_toList text

theorem jsMapGet_eq_none_iff (k : Nat) :
    ∀ l : List (Nat × String), jsMapGet l k = none ↔ ∀ p ∈ l, p.1 ≠ k := by
  intro l
  induction l with
  | nil => simp [jsMapGet]
  | cons hd tl ih =>
    obtain ⟨k2, v⟩ := hd
    simp only [jsMapGet]
    cases htl : jsMapGet tl k with
    | some v2 =>
      simp only [List.mem_cons]
      constructor
      · intro hcontr; cases hcontr
      · intro hall
        have : ∀ p ∈ tl, p.1 ≠ k := fun p hp => hall p (Or.inr hp)
        rw [ih.mpr this] at htl
        cases htl
    | none =>
      by_cases hk : k2 = k
      · simp [hk]
      · simp only [if_neg hk, List.mem_cons]
        constructor
        · rintro _ p (rfl | hp)
          · exact hk
          · exact (ih.mp htl) p hp
        · intro _; trivial

theorem jsMapGet_mem (k : Nat) (v : String) :
    ∀ l : List (Nat × String), jsMapGet l k = some v → (k, v) ∈ l := by
  intro l
  induction l with
  | nil => intro h; cases h
  | cons hd tl ih =>
    obtain ⟨k2, v2⟩ := hd
    simp only [jsMapGet]
    cases htl : jsMapGet tl k with
    | some v3 =>
      intro h
      cases h
      exact List.mem_cons_of_mem _ (ih htl)
    | none =>
      by_cases hk : k2 = k
      · simp only [if_pos hk]
        intro h
        cases h
        subst hk
        exact List.mem_cons_self _ _
      · simp [hk]

/-! ## Claim theorems -/

/-- C8 counterexample: `replacePlaceholders` is not idempotent for every
text and name.  For the text `{{na{{name}}e}}` and the name `m`, one
application yields `{{name}}` (removing the inner token re-assembles an
outer one), and a second application yields `m` — so applying it twice does
not equal applying it once. -/
theorem replacePlaceholders_not_idempotent :
    replacePlaceholders "\x7b\x7bna\x7b\x7bname\x7d\x7de\x7d\x7d" "m" = "\x7b\x7bname\x7d\x7d" ∧
    replacePlaceholders (replacePlaceholders "\x7b\x7bna\x7b\x7bname\x7d\x7de\x7d\x7d" "m") "m" = "m" ∧
    replacePlaceholders (replacePlaceholders "\x7b\x7bna\x7b\x7bname\x7d\x7de\x7d\x7d" "m") "m" ≠
      replacePlaceholders "\x7b\x7bna\x7b\x7bname\x7d\x7de\x7d\x7d" "m" := by
  refine ⟨by decide, by decide, by decide⟩

/-- C8 (amended): `replacePlaceholders` substitutes every `{{name}}` token
(in particular `{{name}}'s Big Adventure` with name `Mira` becomes
`Mira's Big Adventure`), returns any string containing no token unchanged,
and applying it twice equals applying it once whenever the result of the
first application contains no `{{name}}` token (substitution can
re-assemble a token out of adjacent fragments, so unconditional idempotence
fails). -/
theorem replacePlaceholders_spec :
    replacePlaceholders ("\x7b\x7bname\x7d\x7d" ++ apos ++ "s Big Adventure") "Mira"
        = "Mira" ++ apos ++ "s Big Adventure"
    ∧ (∀ text name : String, ¬ strContains text nameToken →
        replacePlaceholders text name = text)
    ∧ (∀ text name : String, ¬ strContains (replacePlaceholders text name) nameToken →
        replacePlaceholders (replacePlaceholders text name) name = replacePlaceholders text name) := by
  refine ⟨by decide, replacePlaceholders_id_of_no_token, ?_⟩
  intro text name h
  exact replacePlaceholders_id_of_no_token _ name h

/-- C8 witness: the hypotheses of `replacePlaceholders_spec` hold at a
concrete input. -/
theorem replacePlaceholders_spec_witness :
    ¬ strContains "no token here" nameToken ∧
      replacePlaceholders "no token here" "Zoe" = "no token here" := by
  exact ⟨by decide, replacePlaceholders_spec.2.1 "no token here" "Zoe" (by decide)⟩

/-- C10: `mergeStoryboardWithImages` keeps the non-page storyboard fields
and every per-page field; it sets `imageUrl` to the generated list entry for
the page number when one is present (the `Map` takes the last entry for a
duplicated page number) and clears `imageUrl` to `undefined` when the page
number is absent from the list. -/
theorem mergeStoryboardWithImages_spec (sb : Storyboard) (imgs : List GeneratedImage) :
    (mergeStoryboardWithImages sb imgs).id = sb.id ∧
    (mergeStoryboardWithImages sb imgs).title = sb.title ∧
    (mergeStoryboardWithImages sb imgs).ageRange = sb.ageRange ∧
    (mergeStoryboardWithImages sb imgs).pageCount = sb.pageCount ∧
    (mergeStoryboardWithImages sb imgs).pages.length = sb.pages.length ∧
    (∀ i, ∀ hi : i < sb.pages.length,
      ∃ q, (mergeStoryboardWithImages sb imgs).pages[i]? = some q ∧
        q.page = sb.pages[i].page ∧
        q.scene = sb.pages[i].scene ∧
        q.props = sb.pages[i].props ∧
        q.environment = sb.pages[i].environment ∧
        q.emotion = sb.pages[i].emotion ∧
        q.action = sb.pages[i].action ∧
        q.setting = sb.pages[i].setting ∧
        q.composition_hint = sb.pages[i].composition_hint ∧
        q.text = sb.pages[i].text ∧
        q.layout = sb.pages[i].layout ∧
        ((∀ g ∈ imgs, g.pageNumber ≠ sb.pages[i].page) → q.imageUrl = none) ∧
        (∀ u, q.imageUrl = some u →
          ∃ g ∈ imgs, g.pageNumber = sb.pages[i].page ∧ g.imageUrl = u) ∧
        ((∃ g ∈ imgs, g.pageNumber = sb.pages[i].page) → ∃ u, q.imageUrl = some u)) := by
  refine ⟨rfl, rfl, rfl, rfl, by simp [mergeStoryboardWithImages], ?_⟩
  intro i hi
  refine ⟨{ sb.pages[i] with
              imageUrl := jsMapGet (imgs.map (fun img => (img.pageNumber, img.imageUrl))) sb.pages[i].page }, ?_,
          rfl, rfl, rfl, rfl, rfl, rfl, rfl, rfl, rfl, rfl, ?_, ?_, ?_⟩
  · simp [mergeStoryboardWithImages, List.getElem?_eq_getElem, hi]
  · intro habsent
    rw [(jsMapGet_eq_none_iff sb.pages[i].page _).mpr]
    intro p hp
    rcases List.mem_map.mp hp with ⟨g, hg, rfl⟩
    exact habsent g hg
  · intro u hu
    have hmem := jsMapGet_mem sb.pages[i].page u _ hu
    rcases List.mem_map.mp hmem with ⟨g, hg, hpair⟩
    exact ⟨g, hg, congrArg Prod.fst hpair, congrArg Prod.snd hpair⟩
  · rintro ⟨g, hg, hpage⟩
    cases hget : jsMapGet (imgs.map (fun img => (img.pageNumber, img.imageUrl))) sb.pages[i].page with
    | some u => exact ⟨u, rfl⟩
    | none =>
      have := (jsMapGet_eq_none_iff sb.pages[i].page _).mp hget
        (g.pageNumber, g.imageUrl) (List.mem_map_of_mem _ hg)
      exact absurd hpage this

/-- C10 witness: `mergeStoryboardWithImages_spec` applied at a concrete
storyboard, image list and page index. -/
theorem mergeStoryboardWithImages_spec_witness :
    ∃ q, (mergeStoryboardWithImages
        { id := "s", title := "t",
          pages := [{ page := 1, scene := "sc", composition_hint := "wide", layout := "full_bleed",
                      imageUrl := some "old" }] }
        [{ pageNumber := 2, imageUrl := "u2" }]).pages[0]? = some q ∧
      q.imageUrl = none := by
  have h := (mergeStoryboardWithImages_spec
    { id := "s", title := "t",
      pages := [{ page := 1, scene := "sc", composition_hint := "wide", layout := "full_bleed",
                  imageUrl := some "old" }] }
    [{ pageNumber := 2, imageUrl := "u2" }]).2.2.2.2.2 0 (by decide)
  rcases h with ⟨q, hq, h1, h2, h3, h4, h5, h6, h7, h8, h9, h10, hnone, _, _⟩
  exact ⟨q, hq, hnone (by decide)⟩

/-- C2 counterexample: the PATCH reject action checks neither the phase
status nor the notes.  Rejecting phase 0 of a project whose phase 0 is
`approved`, with empty notes, succeeds and changes the project (the status
drops back to `review`), where the claim requires the call to fail with the
state unchanged. -/
theorem reject_no_precondition_cex :
    rejectCexProject.phase0.status = .approved ∧
    (patchPhase rejectCexProject 0 "reject" (some "") "T1").1 = .success ∧
    (patchPhase rejectCexProject 0 "reject" (some "") "T1").2.phase0.status = .review ∧
    (patchPhase rejectCexProject 0 "reject" (some "") "T1").2 ≠ rejectCexProject := by
  refine ⟨rfl, rfl, rfl, by decide⟩

/-- C2 (amended): `reject(storyId, phaseNum, notes)` is accepted for every
valid phase number regardless of the phase status and of the notes (empty or
absent notes included); it sets the phase status to `review` and stores the
notes as the phase revision notes. -/
theorem reject_always_succeeds (project : StoryProject) (n : Nat) (notes : Option String)
    (now : String) (hn : n ∈ PHASE_ORDER) :
    (patchPhase project n "reject" notes now).1 = .success ∧
    phaseStatus (patchPhase project n "reject" notes now).2 n = .review ∧
    phaseRevisionNotes (patchPhase project n "reject" notes now).2 n = notes := by
  fin_cases hn <;>
    simp [patchPhase, PHASE_ORDER, updatePhase, saveStoryProject, phaseStatus, phaseRevisionNotes]

/-- C2 witness: `reject_always_succeeds` at a concrete project and phase. -/
theorem reject_always_succeeds_witness :
    (patchPhase rejectCexProject 4 "reject" none "T1").1 = .success ∧
    phaseStatus (patchPhase rejectCexProject 4 "reject" none "T1").2 4 = .review := by
  have h := reject_always_succeeds rejectCexProject 4 none "T1" (by decide)
  exact ⟨h.1, h.2.1⟩

/-- C3: rejecting a phase that is in `review` keeps its output and
timestamps, stores the notes, leaves the status `review`, and changes no
other phase, nor `currentPhase`, `templateReady`, `id` or `name`. -/
theorem reject_frame (project : StoryProject) (n : Nat) (notes : Option String) (now : String)
    (hn : n ∈ PHASE_ORDER) (hreview : phaseStatus project n = .review) :
    (patchPhase project n "reject" notes now).1 = .success ∧
    (n = 0 → (patchPhase project n "reject" notes now).2.phase0
      = { project.phase0 with status := .review, revisionNotes := notes }) ∧
    (n = 1 → (patchPhase project n "reject" notes now).2.phase1
      = { project.phase1 with status := .review, revisionNotes := notes }) ∧
    (n = 2 → (patchPhase project n "reject" notes now).2.phase2
      = { project.phase2 with status := .review, revisionNotes := notes }) ∧
    (n = 4 → (patchPhase project n "reject" notes now).2.phase4
      = { project.phase4 with status := .review, revisionNotes := notes }) ∧
    (n = 5 → (patchPhase project n "reject" notes now).2.phase5
      = { project.phase5 with status := .review, revisionNotes := notes }) ∧
    (n ≠ 0 → (patchPhase project n "reject" notes now).2.phase0 = project.phase0) ∧
    (n ≠ 1 → (patchPhase project n "reject" notes now).2.phase1 = project.phase1) ∧
    (n ≠ 2 → (patchPhase project n "reject" notes now).2.phase2 = project.phase2) ∧
    (n ≠ 4 → (patchPhase project n "reject" notes now).2.phase4 = project.phase4) ∧
    (n ≠ 5 → (patchPhase project n "reject" notes now).2.phase5 = project.phase5) ∧
    (patchPhase project n "reject" notes now).2.currentPhase = project.currentPhase ∧
    (patchPhase project n "reject" notes now).2.templateReady = project.templateReady ∧
    (patchPhase project n "reject" notes now).2.id = project.id ∧
    (patchPhase project n "reject" notes now).2.name = project.name := by
  fin_cases hn <;>
    simp [patchPhase, PHASE_ORDER, updatePhase, saveStoryProject]

/-- C3 witness: `reject_frame` at a concrete project in review. -/
theorem reject_frame_witness :
    phaseStatus approveCexProject 2 = .review ∧
    (patchPhase approveCexProject 2 "reject" (some "too slow pacing") "T2").2.phase2
      = { approveCexProject.phase2 with status := .review, revisionNotes := some "too slow pacing" } ∧
    (patchPhase approveCexProject 2 "reject" (some "too slow pacing") "T2").2.phase4
      = approveCexProject.phase4 := by
  have h := reject_frame approveCexProject 2 (some "too slow pacing") "T2" (by decide) (by decide)
  exact ⟨by decide, h.2.2.2.1 rfl, h.2.2.2.2.2.2.2.2.2.1 (by decide)⟩

/-- C4 counterexample: approving phase 5 always assigns
`currentPhase := nextPhase 5 = 5`; on a project whose phase 5 is in review
while `currentPhase` is 0 (reachable, because generation requires only
dependency outputs), `currentPhase` jumps from 0 to 5 instead of being left
unchanged. -/
theorem approve_phase5_cex :
    approveCexProject.phase5.status = .review ∧
    approveCexProject.currentPhase = 0 ∧
    (patchPhase approveCexProject 5 "approve" none "T3").2.currentPhase = 5 ∧
    (patchPhase approveCexProject 5 "approve" none "T3").2.currentPhase
      ≠ approveCexProject.currentPhase := by
  refine ⟨rfl, rfl, by decide, by decide⟩

/-- C4 (amended): approving a phase in review marks it `approved` and
assigns `currentPhase := nextPhase phaseNum`, the successor in the fixed
sequence `[0,1,2,4,5]`; `nextPhase 5 = 5`, so approving phase 5 sets
`currentPhase` to 5 (a no-op only when `currentPhase` was already 5). -/
theorem approve_advances_currentPhase (project : StoryProject) (n : Nat)
    (notes : Option String) (now : String)
    (hn : n ∈ PHASE_ORDER) (hreview : phaseStatus project n = .review) :
    (patchPhase project n "approve" notes now).1 = .success ∧
    phaseStatus (patchPhase project n "approve" notes now).2 n = .approved ∧
    (patchPhase project n "approve" notes now).2.currentPhase = nextPhase n ∧
    nextPhase 0 = 1 ∧ nextPhase 1 = 2 ∧ nextPhase 2 = 4 ∧ nextPhase 4 = 5 ∧ nextPhase 5 = 5 := by
  fin_cases hn <;>
    simp [patchPhase, PHASE_ORDER, updatePhase, saveStoryProject, phaseStatus, nextPhase]

/-- C4 witness: `approve_advances_currentPhase` at a concrete project whose
phase 2 is in review. -/
theorem approve_advances_currentPhase_witness :
    phaseStatus approveCexProject 2 = .review ∧
    (patchPhase approveCexProject 2 "approve" none "T4").2.currentPhase = 4 := by
  have h := approve_advances_currentPhase approveCexProject 2 none "T4" (by decide) (by decide)
  exact ⟨by decide, by rw [h.2.2.1]; exact h.2.2.2.2.2.1⟩

/-- C1 counterexample: the POST generate handler checks dependency *output
presence*, not approval, and marks the phase `generating` before the check.
(a) With phase 0 in `review` (not approved) but holding an output,
`generate(1)` is not rejected: it succeeds and persists the phase 1 output.
(b) With phase 0 missing entirely, `generate(1)` is rejected, but the
persisted phase 1 status has changed to `generating` instead of staying
`pending`. -/
theorem generate_dependency_cex :
    generateCexProject.phase0.status = .review ∧
    generateCexProject.phase0.status ≠ .approved ∧
    (generatePhase generateCexProject 1 (.ok sampleStoryboard) none "T5").1 = .success ∧
    (generatePhase generateCexProject 1 (.ok sampleStoryboard) none "T5").2.phase1.output
      = some sampleStoryboard ∧
    emptyProject.phase1.status = .pending ∧
    (generatePhase emptyProject 1 (.error "unused") none "T6").1
      = .error 400 "Phase 0 must be completed first" ∧
    (generatePhase emptyProject 1 (.error "unused") none "T6").2.phase1.status = .generating := by
  refine ⟨rfl, by decide, rfl, rfl, rfl, rfl, rfl⟩

/-- C1 (amended): for phases 1, 2, 4, 5, `generate` is rejected exactly when
some immediate dependency phase lacks a stored *output* (1 needs phase 0;
2 needs 0 and 1; 4 needs 0 and 2; 5 needs 2 and 4) — the dependency phases
are not required to be approved.  On rejection nothing is stored for the
phase, but its status has been set to `generating` (and saved) rather than
left unchanged.  When the dependency outputs are present the call proceeds:
a successful generation stores the output with status `review`, and a failed
generation stores nothing. -/
theorem generate_dependency_gate (project : StoryProject) (n : Nat)
    (llm : Except String (PhaseOutputTy n)) (notes : Option String) (now : String)
    (hn : n ∈ [1, 2, 4, 5]) :
    (depsMissing project n = true →
      (∃ msg, (generatePhase project n llm notes now).1 = .error 400 msg) ∧
      getPhaseOutput (generatePhase project n llm notes now).2 n = getPhaseOutput project n ∧
      phaseStatus (generatePhase project n llm notes now).2 n = .generating) ∧
    (depsMissing project n = false →
      (∀ out, llm = .ok out →
        (generatePhase project n llm notes now).1 = .success ∧
        getPhaseOutput (generatePhase project n llm notes now).2 n = some out ∧
        phaseStatus (generatePhase project n llm notes now).2 n = .review) ∧
      (∀ msg, llm = .error msg →
        (generatePhase project n llm notes now).1 = .error 500 msg ∧
        getPhaseOutput (generatePhase project n llm notes now).2 n
          = getPhaseOutput project n)) := by
  fin_cases hn
  · -- phase 1
    constructor
    · intro hd
      simp only [depsMissing, Option.isNone_iff_eq_none] at hd
      refine ⟨⟨"Phase 0 must be completed first", ?_⟩, ?_, ?_⟩ <;>
        simp [generatePhase, updatePhase, saveStoryProject, getPhaseOutput, phaseStatus, hd]
    · intro hd
      cases hc0 : project.phase0.output with
      | none => simp [depsMissing, hc0] at hd
      | some c0 =>
        constructor
        · rintro out rfl
          refine ⟨?_, ?_, ?_⟩ <;>
            simp [generatePhase, updatePhase, saveStoryProject, getPhaseOutput, phaseStatus, hc0]
        · rintro msg rfl
          refine ⟨?_, ?_⟩ <;>
            simp [generatePhase, updatePhase, saveStoryProject, getPhaseOutput, phaseStatus, hc0]
  · -- phase 2
    constructor
    · intro hd
      simp only [depsMissing, Bool.or_eq_true, Option.isNone_iff_eq_none] at hd
      rcases hd with h | h <;>
        refine ⟨⟨"Phase 0 and 1 must be completed first", ?_⟩, ?_, ?_⟩ <;>
          simp [generatePhase, updatePhase, saveStoryProject, getPhaseOutput, phaseStatus, h]
    · intro hd
      cases hc0 : project.phase0.output with
      | none => simp [depsMissing, hc0] at hd
      | some c0 =>
        cases hc1 : project.phase1.output with
        | none => simp [depsMissing, hc1] at hd
        | some c1 =>
          constructor
          · rintro out rfl
            refine ⟨?_, ?_, ?_⟩ <;>
              simp [generatePhase, updatePhase, saveStoryProject, getPhaseOutput, phaseStatus,
                hc0, hc1]
          · rintro msg rfl
            refine ⟨?_, ?_⟩ <;>
              simp [generatePhase, updatePhase, saveStoryProject, getPhaseOutput, phaseStatus,
                hc0, hc1]
  · -- phase 4
    constructor
    · intro hd
      simp only [depsMissing, Bool.or_eq_true, Option.isNone_iff_eq_none] at hd
      rcases hd with h | h <;>
        refine ⟨⟨"Phase 0 and 2 must be completed first", ?_⟩, ?_, ?_⟩ <;>
          simp [generatePhase, updatePhase, saveStoryProject, getPhaseOutput, phaseStatus, h]
    · intro hd
      cases hc0 : project.phase0.output with
      | none => simp [depsMissing, hc0] at hd
      | some c0 =>
        cases hc2 : project.phase2.output with
        | none => simp [depsMissing, hc2] at hd
        | some c2 =>
          constructor
          · rintro out rfl
            refine ⟨?_, ?_, ?_⟩ <;>
              simp [generatePhase, updatePhase, saveStoryProject, getPhaseOutput, phaseStatus,
                hc0, hc2]
          · rintro msg rfl
            refine ⟨?_, ?_⟩ <;>
              simp [generatePhase, updatePhase, saveStoryProject, getPhaseOutput, phaseStatus,
                hc0, hc2]
  · -- phase 5
    constructor
    · intro hd
      simp only [depsMissing, Bool.or_eq_true, Option.isNone_iff_eq_none] at hd
      rcases hd with h | h <;>
        refine ⟨⟨"Phase 2 and 4 must be completed first", ?_⟩, ?_, ?_⟩ <;>
          simp [generatePhase, updatePhase, saveStoryProject, getPhaseOutput, phaseStatus, h]
    · intro hd
      cases hc2 : project.phase2.output with
      | none => simp [depsMissing, hc2] at hd
      | some c2 =>
        cases hc4 : project.phase4.output with
        | none => simp [depsMissing, hc4] at hd
        | some c4 =>
          constructor
          · rintro out rfl
            refine ⟨?_, ?_, ?_⟩ <;>
              simp [generatePhase, updatePhase, saveStoryProject, getPhaseOutput, phaseStatus,
                hc2, hc4]
          · rintro msg rfl
            refine ⟨?_, ?_⟩ <;>
              simp [generatePhase, updatePhase, saveStoryProject, getPhaseOutput, phaseStatus,
                hc2, hc4]

/-- C1 witness: `generate_dependency_gate` at a concrete project (phase 2
generation on a project with phases 0 and 1 outputs present). -/
theorem generate_dependency_gate_witness :
    depsMissing approveCexProject 2 = false ∧
    (generatePhase approveCexProject 2 (.ok sampleManuscript) none "T7").1 = .success := by
  have h := (generate_dependency_gate approveCexProject 2 (.ok sampleManuscript) none "T7"
    (by decide)).2 (by decide)
  exact ⟨by decide, (h.1 sampleManuscript rfl).1⟩

/-- C5: `convertToTemplateFiles` fails (and leaves every artifact untouched)
when the phase 0 or phase 2 output is missing; on success, re-running it on
the resulting state — whose phase outputs are unchanged — succeeds and
produces exactly the same `story.json`, `prop-bible.json` and `prompts.json`
artifacts (the conversion helpers are deterministic pure functions of the
phase outputs, so the serialized artifacts are byte-identical). -/
theorem convertToTemplateFiles_idempotent (s : TemplateFilesState) (now1 now2 : String) :
    ((s.project.phase0.output = none ∨ s.project.phase2.output = none) →
      (convertToTemplateFiles s now1).1
          = .error 500 "Phase 0 and Phase 2 required for conversion" ∧
      (convertToTemplateFiles s now1).2 = s) ∧
    (∀ s1, (convertToTemplateFiles s now1).1 = .success →
      (convertToTemplateFiles s now1).2 = s1 →
      (convertToTemplateFiles s1 now2).1 = .success ∧
      (convertToTemplateFiles s1 now2).2.storyFile = s1.storyFile ∧
      (convertToTemplateFiles s1 now2).2.propBibleFile = s1.propBibleFile ∧
      (convertToTemplateFiles s1 now2).2.promptsFile = s1.promptsFile) := by
  constructor
  · intro hmiss
    cases hc0 : s.project.phase0.output with
    | none => constructor <;> simp [convertToTemplateFiles, hc0]
    | some c =>
      cases hc2 : s.project.phase2.output with
      | none => constructor <;> simp [convertToTemplateFiles, hc0, hc2]
      | some m =>
        rcases hmiss with h | h
        · rw [hc0] at h; cases h
        · rw [hc2] at h; cases h
  · intro s1 hres heq
    cases hc0 : s.project.phase0.output with
    | none => simp [convertToTemplateFiles, hc0] at hres
    | some c =>
      cases hc2 : s.project.phase2.output with
      | none => simp [convertToTemplateFiles, hc0, hc2] at hres
      | some m =>
        cases hc4 : s.project.phase4.output with
        | none =>
          cases hc5 : s.project.phase5.output with
          | none =>
            subst heq
            refine ⟨?_, ?_, ?_, ?_⟩ <;>
              simp [convertToTemplateFiles, saveStoryProject, hc0, hc2, hc4, hc5]
          | some briefs =>
            subst heq
            refine ⟨?_, ?_, ?_, ?_⟩ <;>
              simp [convertToTemplateFiles, saveStoryProject, hc0, hc2, hc4, hc5]
        | some pb =>
          cases hc5 : s.project.phase5.output with
          | none =>
            subst heq
            refine ⟨?_, ?_, ?_, ?_⟩ <;>
              simp [convertToTemplateFiles, saveStoryProject, hc0, hc2, hc4, hc5]
          | some briefs =>
            subst heq
            refine ⟨?_, ?_, ?_, ?_⟩ <;>
              simp [convertToTemplateFiles, saveStoryProject, hc0, hc2, hc4, hc5]

/-- C5 witness: `convertToTemplateFiles_idempotent` at a concrete project
with all outputs present: both runs succeed, and including the missing-output
branch at a state with no phase 0 output. -/
theorem convertToTemplateFiles_idempotent_witness :
    (convertToTemplateFiles sampleFilesState "T8").1 = .success ∧
    (convertToTemplateFiles (convertToTemplateFiles sampleFilesState "T8").2 "T9").1 = .success ∧
    (convertToTemplateFiles { project := emptyProject } "T8").2 = { project := emptyProject } := by
  have h := (convertToTemplateFiles_idempotent sampleFilesState "T8" "T9").2
    (convertToTemplateFiles sampleFilesState "T8").2 (by decide) rfl
  have h2 := (convertToTemplateFiles_idempotent { project := emptyProject } "T8" "T9").1
    (Or.inl (by decide))
  exact ⟨by decide, h.1, h2.2⟩

theorem infix_joinParts (sep : String) :
    ∀ (l : List String) (a : String), a ∈ l → a.toList <:+: (joinParts sep l).toList := by
  intro l
  induction l with
  | nil => intro a ha; cases ha
  | cons p rest ih =>
    intro a ha
    cases rest with
    | nil =>
      have : a = p := by simpa using ha
      subst this
      exact List.infix_refl _
    | cons q t =>
      rcases List.mem_cons.mp ha with rfl | hmem
      · exact ⟨[], (sep ++ joinParts sep (q :: t)).toList, by simp [joinParts, strToList_append]⟩
      · rcases ih a hmem with ⟨u, v, huv⟩
        refine ⟨p.toList ++ sep.toList ++ u, v, ?_⟩
        have h3 : joinParts sep (p :: q :: t) = p ++ sep ++ joinParts sep (q :: t) := rfl
        rw [h3, strToList_append, strToList_append, ← huv]
        simp [List.append_assoc]

theorem strContains_sketch_prompt (page : StoryPage) (propBible : PropBible)
    {a sub : String} (ha : a ∈ storyboardPromptParts page propBible)
    (hsub : sub.toList <:+: a.toList) :
    strContains (buildStoryboardPanelPromptWithProps page propBible) sub := by
  have h1 := infix_joinParts ". " (storyboardPromptParts page propBible) a ha
  have h2 : a.toList <:+: (buildStoryboardPanelPromptWithProps page propBible).toList := by
    rcases h1 with ⟨u, v, huv⟩
    refine ⟨u, v ++ ".".toList, ?_⟩
    simp only [buildStoryboardPanelPromptWithProps, strToList_append]
    rw [← huv]
    simp [List.append_assoc]
  exact hsub.trans h2

theorem storyboardPromptParts_decomp (page : StoryPage) (propBible : PropBible) :
    storyboardPromptParts page propBible =
      scenePartOf page :: (keyObjectsPartsOf page propBible ++ environmentPartsOf page propBible
        ++ ("Composition: " ++ compositionChoiceOf page propBible)
        :: (layoutPartsOf page ++ instructionsPartsOf propBible ++ [stylePartOf propBible])) := by
  simp [storyboardPromptParts, scenePartOf, keyObjectsPartsOf, environmentPartsOf,
    compositionChoiceOf, defaultCompositionPhrase, layoutPartsOf, instructionsPartsOf, stylePartOf]

/-- C6 counterexample: an override that is *set* but empty is ignored by the
JS truthiness test, so the claim fails: the composition section falls back to
the default phrase for `composition_hint = "wide"`, and that default phrase
does occur in the prompt. -/
theorem empty_composition_override_cex :
    overrideCexBible.compositions.lookup overrideCexPage.page = some "" ∧
    compositionChoiceOf overrideCexPage overrideCexBible
      = "wide shot showing full scene and environment" ∧
    strContains (buildStoryboardPanelPromptWithProps overrideCexPage overrideCexBible)
      "wide shot showing full scene and environment" := by
  refine ⟨by decide, by decide, ?_⟩
  refine strContains_sketch_prompt overrideCexPage overrideCexBible
    (a := "Composition: " ++ "wide shot showing full scene and environment") ?_ ?_
  · rw [storyboardPromptParts_decomp]
    have hch : compositionChoiceOf overrideCexPage overrideCexBible
        = "wide shot showing full scene and environment" := by decide
    rw [hch]
    simp
  · exact ⟨"Composition: ".toList, [], by simp [strToList_append]⟩

/-- C6 (amended): when `propBible.compositions[page.page]` is set to a
*non-empty* string, the sketch prompt's composition section is exactly
`Composition: <override>` — the default composition-hint phrase is not used
for it — and the override occurs verbatim in the prompt; when the override
is absent or empty, the composition section carries the default phrase
derived from `composition_hint` (with the `"medium shot"` fallback), which
then occurs in the prompt. -/
theorem composition_override_precedence (page : StoryPage) (propBible : PropBible) :
    (∀ ov, propBible.compositions.lookup page.page = some ov → ov ≠ "" →
      compositionChoiceOf page propBible = ov ∧
      storyboardPromptParts page propBible =
        scenePartOf page :: (keyObjectsPartsOf page propBible ++ environmentPartsOf page propBible
          ++ ("Composition: " ++ ov)
          :: (layoutPartsOf page ++ instructionsPartsOf propBible ++ [stylePartOf propBible])) ∧
      strContains (buildStoryboardPanelPromptWithProps page propBible) ov) ∧
    ((propBible.compositions.lookup page.page).getD "" = "" →
      compositionChoiceOf page propBible = defaultCompositionPhrase page ∧
      storyboardPromptParts page propBible =
        scenePartOf page :: (keyObjectsPartsOf page propBible ++ environmentPartsOf page propBible
          ++ ("Composition: " ++ defaultCompositionPhrase page)
          :: (layoutPartsOf page ++ instructionsPartsOf propBible ++ [stylePartOf propBible])) ∧
      strContains (buildStoryboardPanelPromptWithProps page propBible)
        (defaultCompositionPhrase page)) := by
  constructor
  · intro ov hov hne
    have hchoice : compositionChoiceOf page propBible = ov := by
      simp [compositionChoiceOf, hov, hne]
    have hdecomp := storyboardPromptParts_decomp page propBible
    rw [hchoice] at hdecomp
    refine ⟨hchoice, hdecomp, ?_⟩
    refine strContains_sketch_prompt page propBible (a := "Composition: " ++ ov) ?_ ?_
    · rw [hdecomp]; simp
    · exact ⟨"Composition: ".toList, [], by simp [strToList_append]⟩
  · intro hgd
    have hchoice : compositionChoiceOf page propBible = defaultCompositionPhrase page := by
      cases hlk : propBible.compositions.lookup page.page with
      | none => simp [compositionChoiceOf, hlk]
      | some v =>
        rw [hlk] at hgd
        simp only [Option.getD_some] at hgd
        simp [compositionChoiceOf, hlk, hgd]
    have hdecomp := storyboardPromptParts_decomp page propBible
    rw [hchoice] at hdecomp
    refine ⟨hchoice, hdecomp, ?_⟩
    refine strContains_sketch_prompt page propBible
      (a := "Composition: " ++ defaultCompositionPhrase page) ?_ ?_
    · rw [hdecomp]; simp
    · exact ⟨"Composition: ".toList, [], by simp [strToList_append]⟩

/-- C6 witness: `composition_override_precedence` at concrete inputs, for
both the non-empty-override branch and the no-override branch. -/
theorem composition_override_precedence_witness :
    strContains
      (buildStoryboardPanelPromptWithProps overrideCexPage
        { storyId := "s", compositions := [(2, "birds-eye view over the yard")] })
      "birds-eye view over the yard" ∧
    strContains (buildStoryboardPanelPromptWithProps overrideCexPage { storyId := "s" })
      "wide shot showing full scene and environment" := by
  have h1 := (composition_override_precedence overrideCexPage
    { storyId := "s", compositions := [(2, "birds-eye view over the yard")] }).1
    "birds-eye view over the yard" (by decide) (by decide)
  have h2 := (composition_override_precedence overrideCexPage { storyId := "s" }).2 (by decide)
  exact ⟨h1.2.2, h2.2.2⟩

/-- C7: for a page none of whose prop keys match the prop bible and whose
environment key is absent, empty, or unmatched, the sketch prompt has no
`Key objects` part and no `Environment` part at all — the parts list is
exactly scene, composition, optional layout, optional global instructions
and the style part (which falls back to the default sketch style), and the
total composer never fails. -/
theorem missing_props_env_sections_omitted (page : StoryPage) (propBible : PropBible)
    (hp : ∀ k ∈ page.props.getD [], propBible.props.lookup k = none)
    (he : ∀ k, page.environment = some k → k ≠ "" → propBible.environments.lookup k = none) :
    keyObjectsPartsOf page propBible = [] ∧
    environmentPartsOf page propBible = [] ∧
    storyboardPromptParts page propBible =
      scenePartOf page :: ("Composition: " ++ compositionChoiceOf page propBible)
        :: (layoutPartsOf page ++ instructionsPartsOf propBible ++ [stylePartOf propBible]) := by
  have hko : keyObjectsPartsOf page propBible = [] := by
    unfold keyObjectsPartsOf
    have hnil : (page.props.getD []).filterMap
        (fun propKey => (propBible.props.lookup propKey).map (fun p => p.description)) = [] := by
      rw [List.filterMap_eq_nil_iff]
      intro k hk
      rw [hp k hk]
      rfl
    simp [hnil]
  have henv : environmentPartsOf page propBible = [] := by
    unfold environmentPartsOf
    cases hpe : page.environment with
    | none => simp
    | some k =>
      by_cases hk : k = ""
      · simp [hk]
      · simp [hk, he k hpe hk]
  refine ⟨hko, henv, ?_⟩
  rw [storyboardPromptParts_decomp, hko, henv]
  simp

/-- C7 witness: `missing_props_env_sections_omitted` at a concrete page with
no prop keys and no environment key. -/
theorem missing_props_env_sections_omitted_witness :
    keyObjectsPartsOf overrideCexPage overrideCexBible = [] ∧
    environmentPartsOf overrideCexPage overrideCexBible = [] := by
  have h := missing_props_env_sections_omitted overrideCexPage overrideCexBible
    (fun k hk => by simp [overrideCexPage] at hk)
    (fun k hk => by simp [overrideCexPage] at hk)
  exact ⟨h.1, h.2.1⟩

theorem strStartsWith_append (pre rest : String) : strStartsWith (pre ++ rest) pre :=
  ⟨rest.toList, rfl⟩

theorem strStartsWith_append_left (s t pre : String) (h : strStartsWith s pre) :
    strStartsWith (s ++ t) pre := by
  rcases h with ⟨u, hu⟩
  exact ⟨u ++ t.toList, by rw [strToList_append, ← hu, List.append_assoc]⟩

/-- C9 counterexample: in final mode (`forStoryboard = false`) the
characters section is labelled `CHARACTER_DIRECTION`, not `CHARACTERS`: on a
concrete brief the prompt parts are SCENE, ENVIRONMENT, CHARACTER_DIRECTION
and MOOD, and no part is prefixed by the claimed `CHARACTERS` label (the
generic noun `the protagonist` is still sanitized to `the character`). -/
theorem final_mode_character_label_cex :
    phase5PromptParts sectionCexBrief none false =
      ["SCENE: hero stands tall",
       "ENVIRONMENT: sunny meadow",
       "CHARACTER_DIRECTION: the character smiling",
       "MOOD: calm wonder"] ∧
    (∀ s ∈ phase5PromptParts sectionCexBrief none false, ¬ strStartsWith s "CHARACTERS") := by
  refine ⟨by decide, by decide⟩

/-- C9 (amended): for every panel brief, props bible and mode flag, the
prompt parts are, in order: the placeholder instruction (storyboard mode
only), `SCENE`, `ENVIRONMENT`, the characters section — labelled
`CHARACTERS` in storyboard mode but `CHARACTER_DIRECTION` in final mode —
then optional `OBJECTS`, optional `VISUAL MOTIFS`, `MOOD`, and an optional
`STYLE` section, newline-joined by the builder; both modes run the same
`sanitizeChildReferences` pass over the free-text fields, which maps the
generic nouns to `the white outline placeholder` (storyboard) or
`the character` (final). -/
theorem phase5_prompt_structure (brief : Phase5PanelBrief) (pb : Option Phase4PropsBible)
    (forS : Bool) :
    phase5PromptParts brief pb forS =
      (if forS then ["PLACEHOLDER FIGURE: " ++ PLACEHOLDER_INSTRUCTION] else [])
      ++ ["SCENE: " ++ sanitizeChildReferences brief.composition forS]
      ++ [envSectionOf brief pb forS]
      ++ [charsSectionOf brief pb forS]
      ++ objectsSectionOf brief pb forS
      ++ motifsSectionOf brief pb
      ++ ["MOOD: " ++ sanitizeChildReferences brief.emotionalDirection forS]
      ++ styleSectionOf pb forS ∧
    strStartsWith (envSectionOf brief pb forS) "ENVIRONMENT: " ∧
    (forS = true → strStartsWith (charsSectionOf brief pb forS) "CHARACTERS: ") ∧
    (forS = false → strStartsWith (charsSectionOf brief pb forS) "CHARACTER_DIRECTION: ") ∧
    (∀ s ∈ objectsSectionOf brief pb forS, strStartsWith s "OBJECTS: ") ∧
    (∀ s ∈ motifsSectionOf brief pb, strStartsWith s "VISUAL MOTIFS: ") ∧
    (∀ s ∈ styleSectionOf pb forS, strStartsWith s "STYLE: ") ∧
    buildStoryboardPanelPromptFromPhase5 brief pb forS
      = joinParts ". \x0a" (phase5PromptParts brief pb forS) ++ "." ∧
    sanitizeChildReferences "the child" true = "the white outline placeholder" ∧
    sanitizeChildReferences "the boy" true = "the white outline placeholder" ∧
    sanitizeChildReferences "the protagonist" true = "the white outline placeholder" ∧
    sanitizeChildReferences "the child" false = "the character" ∧
    sanitizeChildReferences "the boy" false = "the character" ∧
    sanitizeChildReferences "the protagonist" false = "the character" := by
  refine ⟨?_, ?_, ?_, ?_, ?_, ?_, ?_, rfl,
    by decide, by decide, by decide, by decide, by decide, by decide⟩
  · cases forS <;> cases pb with
    | none => rfl
    | some pb4 =>
      cases hf : pb4.environments.find? (fun e => e.usedInSpreads.contains brief.spreadNumber) <;>
        simp only [phase5PromptParts, envSectionOf, charsSectionOf, objectsSectionOf,
          motifsSectionOf, styleSectionOf, hf, Bool.false_eq_true, eq_self_iff_true,
          if_false, if_true, List.append_assoc]
  · cases pb with
    | none => exact strStartsWith_append _ _
    | some pb4 =>
      cases hf : pb4.environments.find? (fun e => e.usedInSpreads.contains brief.spreadNumber) with
      | some env =>
        simp only [envSectionOf, hf, strStartsWith, strToList_append, List.append_assoc]
        exact List.prefix_append _ _
      | none =>
        simp only [envSectionOf, hf]
        exact strStartsWith_append _ _
  · intro hs
    subst hs
    exact strStartsWith_append _ _
  · intro hs
    subst hs
    exact strStartsWith_append _ _
  · intro s hs
    cases pb with
    | some pb4 =>
      simp only [objectsSectionOf] at hs
      split at hs
      · rcases List.mem_singleton.mp hs with rfl
        exact strStartsWith_append _ _
      · split at hs
        · rcases List.mem_singleton.mp hs with rfl
          exact strStartsWith_append _ _
        · cases hs
    | none =>
      simp only [objectsSectionOf] at hs
      split at hs
      · rcases List.mem_singleton.mp hs with rfl
        exact strStartsWith_append _ _
      · cases hs
  · intro s hs
    cases pb with
    | some pb4 =>
      simp only [motifsSectionOf] at hs
      split at hs
      · rcases List.mem_singleton.mp hs with rfl
        exact strStartsWith_append _ _
      · cases hs
    | none => cases hs
  · intro s hs
    simp only [styleSectionOf] at hs
    split at hs
    · rcases List.mem_singleton.mp hs with rfl
      exact strStartsWith_append_left _ _ _ (strStartsWith_append _ _)
    · split at hs
      · rcases List.mem_singleton.mp hs with rfl
        exact strStartsWith_append _ _
      · cases hs

/-- C9 witness: `phase5_prompt_structure` at concrete briefs, one per mode. -/
theorem phase5_prompt_structure_witness :
    strStartsWith (charsSectionOf sectionCexBrief none false) "CHARACTER_DIRECTION: " ∧
    strStartsWith (charsSectionOf sectionCexBrief (some samplePropsBible) true) "CHARACTERS: " := by
  exact ⟨(phase5_prompt_structure sectionCexBrief none false).2.2.2.1 rfl,
         (phase5_prompt_structure sectionCexBrief (some samplePropsBible) true).2.2.1 rfl⟩
